import Mathlib

/-!
Verification development for src/cli/ops/tty.rs: the three TTY ops
(op_set_raw, op_isatty, op_console_size) over the StreamResource data
model, embedded shallowly.

Modelling conventions:
* termios flag words (tcflag_t) and the Windows console-mode DWORD are
  natural numbers; the bitflags operation `flags &= !(MASK)` is embedded
  as `clearMask flags MASK = flags ^^^ (flags &&& MASK)`, which agrees
  bit for bit with `flags AND (NOT MASK)` at every width.
* syscalls are modelled by explicit success flags plus the value they
  would produce; each op returns the number of platform syscalls it
  performed so that "performs zero syscalls" is a provable statement.
* a resource-table lookup `resource_table.get_mut::<StreamResourceHolder>(rid)`
  is modelled by an `Option StreamResource` argument (the view of the
  entry for the requested rid); the op returns the final state of that
  entry, `none` meaning the entry does not exist.
-/

deriving instance DecidableEq for Except

namespace Tty

/-- Clear the bits of `mask` in `m`, keeping every other bit: the embedding of
the bitflags operation `m &= !(mask)` (bitwise AND with complement). -/
def clearMask (m mask : Nat) : Nat := m ^^^ (m &&& mask)

/-- Terminal attribute snapshot, the embedding of `termios::Termios` as used by
op_set_raw: the four flag words and the control-character array. -/
structure Termios where
  input_flags : Nat
  output_flags : Nat
  control_flags : Nat
  local_flags : Nat
  control_chars : List Nat
deriving DecidableEq

/-- Linux numeric value of termios InputFlags::BRKINT. -/
def BRKINT : Nat := 2
/-- Linux numeric value of termios InputFlags::ICRNL. -/
def ICRNL : Nat := 256
/-- Linux numeric value of termios InputFlags::INPCK. -/
def INPCK : Nat := 16
/-- Linux numeric value of termios InputFlags::ISTRIP. -/
def ISTRIP : Nat := 32
/-- Linux numeric value of termios InputFlags::IXON. -/
def IXON : Nat := 1024
/-- Linux numeric value of termios ControlFlags::CS8 (both CSIZE bits). -/
def CS8 : Nat := 48
/-- Linux numeric value of termios LocalFlags::ECHO. -/
def ECHO : Nat := 8
/-- Linux numeric value of termios LocalFlags::ICANON. -/
def ICANON : Nat := 2
/-- Linux numeric value of termios LocalFlags::IEXTEN. -/
def IEXTEN : Nat := 32768
/-- Linux numeric value of termios LocalFlags::ISIG. -/
def ISIG : Nat := 1
/-- Linux index of the VTIME control character. -/
def VTIME : Nat := 5
/-- Linux index of the VMIN control character. -/
def VMIN : Nat := 6

/-- Input flags cleared by the raw-mode construction in op_set_raw. -/
def INPUT_RAW_MASK : Nat := BRKINT ||| ICRNL ||| INPCK ||| ISTRIP ||| IXON
/-- Local flags cleared by the raw-mode construction in op_set_raw. -/
def LOCAL_RAW_MASK : Nat := ECHO ||| ICANON ||| IEXTEN ||| ISIG

/-- Raw-variant construction from the unix branch of op_set_raw (tty.rs lines
175-188): clear BRKINT, ICRNL, INPCK, ISTRIP, IXON in input_flags; set CS8 in
control_flags; clear ECHO, ICANON, IEXTEN, ISIG in local_flags; set
control_chars at VMIN to 1 and at VTIME to 0. -/
def makeRaw (m : Termios) : Termios :=
  { m with
    input_flags := clearMask m.input_flags INPUT_RAW_MASK
    control_flags := m.control_flags ||| CS8
    local_flags := clearMask m.local_flags LOCAL_RAW_MASK
    control_chars := (m.control_chars.set VMIN 1).set VTIME 0 }

/-- Typed failures surfaced by the ops (ErrBox constructors used in tty.rs). -/
inductive Err where
  /-- ErrBox::bad_resource_id() -/
  | badResource
  /-- ErrBox::resource_unavailable() -/
  | resourceUnavailable
  /-- ErrBox::not_supported() -/
  | notSupported
  /-- ErrBox::last_os_error() -/
  | osFailure
  /-- ErrBox::new("ReferenceError", "null handle") -/
  | nullHandle
  /-- a failed serde_json::from_value(args) -/
  | invalidArgs
  /-- the unstable-feature gate is closed (spec section 4.3 / 7) -/
  | featureDisabled
deriving DecidableEq

/-- StreamResource variants relevant to tty.rs: Stdin carries the saved tty
mode of its metadata; FsFile carries an optional slot (None while the handle
is checked out by an in-flight operation) whose metadata carries the saved
tty mode; every other resource kind is collapsed into Other. -/
inductive StreamResource where
  | Stdin (saved_mode : Option Termios)
  | FsFile (handle_slot : Option (Option Termios))
  | Other
deriving DecidableEq

/-- Outcome of the unix op_set_raw: the op result, the final state of the
resource-table entry, the final terminal attributes of the underlying
descriptor, and the number of platform syscalls performed. -/
structure SetRawOut where
  result : Except Err Unit
  resource : Option StreamResource
  term : Termios
  syscalls : Nat
deriving DecidableEq

/-- Core of the unix is_raw=true branch of op_set_raw (tty.rs lines 165-190),
acting on the saved-mode slot the match arm selected: if a mode is already
saved, skip (already raw); otherwise tcgetattr (may fail), store the captured
mode into the slot, then tcsetattr the raw variant (may fail; the capture has
already been stored when it does). -/
def enableRaw (saved : Option Termios) (term : Termios) (getOk setOk : Bool) :
    Except Err Unit × Option Termios × Termios × Nat :=
  match saved with
  | some m => (Except.ok (), some m, term, 0)
  | none =>
    if getOk then
      let original_mode := term
      let raw := makeRaw original_mode
      if setOk then (Except.ok (), some original_mode, raw, 2)
      else (Except.error Err.osFailure, some original_mode, term, 2)
    else (Except.error Err.osFailure, none, term, 1)

/-- Core of the unix is_raw=false branch of op_set_raw (tty.rs lines 209-213):
take the saved mode out of the slot (leaving None) and, if one was present,
tcsetattr it back (may fail; the slot has already been emptied). -/
def disableRaw (saved : Option Termios) (term : Termios) (setOk : Bool) :
    Except Err Unit × Option Termios × Termios × Nat :=
  match saved with
  | none => (Except.ok (), none, term, 0)
  | some mode =>
    if setOk then (Except.ok (), none, mode, 1)
    else (Except.error Err.osFailure, none, term, 1)

/-- The unix cfg block of op_set_raw (tty.rs lines 139-215), after gate check
and argument deserialization: resolve the resource, dispatch on kind, and run
enableRaw or disableRaw on the selected saved-mode slot. -/
def op_set_raw_unix (is_raw : Bool) (resource : Option StreamResource)
    (term : Termios) (getOk setOk : Bool) : SetRawOut :=
  match resource with
  | none => ⟨Except.error Err.badResource, none, term, 0⟩
  | some r =>
    if is_raw then
      match r with
      | StreamResource.Stdin saved =>
        let (res, saved2, term2, n) := enableRaw saved term getOk setOk
        ⟨res, some (StreamResource.Stdin saved2), term2, n⟩
      | StreamResource.FsFile (some saved) =>
        let (res, saved2, term2, n) := enableRaw saved term getOk setOk
        ⟨res, some (StreamResource.FsFile (some saved2)), term2, n⟩
      | StreamResource.FsFile none =>
        ⟨Except.error Err.resourceUnavailable, some (StreamResource.FsFile none),
          term, 0⟩
      | StreamResource.Other =>
        ⟨Except.error Err.notSupported, some StreamResource.Other, term, 0⟩
    else
      match r with
      | StreamResource.Stdin saved =>
        let (res, saved2, term2, n) := disableRaw saved term setOk
        ⟨res, some (StreamResource.Stdin saved2), term2, n⟩
      | StreamResource.FsFile (some saved) =>
        let (res, saved2, term2, n) := disableRaw saved term setOk
        ⟨res, some (StreamResource.FsFile (some saved2)), term2, n⟩
      | StreamResource.FsFile none =>
        ⟨Except.error Err.resourceUnavailable, some (StreamResource.FsFile none),
          term, 0⟩
      | StreamResource.Other =>
        ⟨Except.error Err.badResource, some StreamResource.Other, term, 0⟩

/-- Numeric value of wincon::ENABLE_PROCESSED_INPUT. -/
def ENABLE_PROCESSED_INPUT : Nat := 1
/-- Numeric value of wincon::ENABLE_LINE_INPUT. -/
def ENABLE_LINE_INPUT : Nat := 2
/-- Numeric value of wincon::ENABLE_ECHO_INPUT. -/
def ENABLE_ECHO_INPUT : Nat := 4
/-- RAW_MODE_MASK from tty.rs lines 20-22. -/
def RAW_MODE_MASK : Nat :=
  ENABLE_LINE_INPUT ||| ENABLE_ECHO_INPUT ||| ENABLE_PROCESSED_INPUT

/-- Platform inputs of the windows cfg block of op_set_raw: the current
console mode, the validity of the resolved handle, the success of the
GetConsoleMode / SetConsoleMode syscalls, and the success of
tokio_file.try_into_std (false while an operation is in flight). -/
structure WinSys where
  consoleMode : Nat
  handleIsInvalidValue : Bool
  handleIsNull : Bool
  getOk : Bool
  setOk : Bool
  convertOk : Bool
deriving DecidableEq

/-- Outcome of the windows op_set_raw: result, final resource-table entry,
final console mode, and number of console-mode syscalls performed. -/
structure WinSetRawOut where
  result : Except Err Unit
  resource : Option StreamResource
  consoleMode : Nat
  syscalls : Nat
deriving DecidableEq

/-- The windows cfg block of op_set_raw (tty.rs lines 72-138), after gate
check and argument deserialization: resolve the handle (taking the FsFile
slot and reinserting it on both the success and the failed-conversion path),
validate the handle, GetConsoleMode, compute the new mode from the current
one and RAW_MODE_MASK, SetConsoleMode. -/
def op_set_raw_windows (is_raw : Bool) (resource : Option StreamResource)
    (w : WinSys) : WinSetRawOut :=
  match resource with
  | none => ⟨Except.error Err.badResource, none, w.consoleMode, 0⟩
  | some r =>
    let handle : Except Err Unit :=
      match r with
      | StreamResource.Stdin _ => Except.ok ()
      | StreamResource.FsFile (some _) =>
        if w.convertOk then Except.ok ()
        else Except.error Err.resourceUnavailable
      | StreamResource.FsFile none => Except.error Err.resourceUnavailable
      | StreamResource.Other => Except.error Err.badResource
    match handle with
    | Except.error e => ⟨Except.error e, some r, w.consoleMode, 0⟩
    | Except.ok () =>
      if w.handleIsInvalidValue then
        ⟨Except.error Err.osFailure, some r, w.consoleMode, 0⟩
      else if w.handleIsNull then
        ⟨Except.error Err.nullHandle, some r, w.consoleMode, 0⟩
      else if !w.getOk then
        ⟨Except.error Err.osFailure, some r, w.consoleMode, 1⟩
      else
        let original_mode := w.consoleMode
        let new_mode :=
          if is_raw then clearMask original_mode RAW_MODE_MASK
          else original_mode ||| RAW_MODE_MASK
        if w.setOk then ⟨Except.ok (), some r, new_mode, 2⟩
        else ⟨Except.error Err.osFailure, some r, w.consoleMode, 2⟩

/-- Modelled from the spec: `State::check_unstable` (crate::state, not under
src/) is the process-level unstable-feature gate; per the spec, a gated call
made while the gate is closed fails with a distinct "feature not enabled"
condition before any syscall is attempted. -/
def check_unstable (unstable_flag : Bool) : Except Err Unit :=
  if unstable_flag then Except.ok () else Except.error Err.featureDisabled

/-- Deserialized arguments of op_set_raw (struct SetRawArgs). -/
structure SetRawArgs where
  rid : Nat
  mode : Bool
deriving DecidableEq

/-- Full op_set_raw on the unix platform (tty.rs lines 56-216): unstable gate
check first, then argument deserialization (args = none models a value that
fails to deserialize), then the platform block. The resource argument is the
table entry for args.rid. -/
def op_set_raw (unstable_flag : Bool) (args : Option SetRawArgs)
    (resource : Option StreamResource) (term : Termios) (getOk setOk : Bool) :
    SetRawOut :=
  match check_unstable unstable_flag with
  | Except.error e => ⟨Except.error e, resource, term, 0⟩
  | Except.ok () =>
    match args with
    | none => ⟨Except.error Err.invalidArgs, resource, term, 0⟩
    | some a => op_set_raw_unix a.mode resource term getOk setOk

/-- Full op_set_raw on the windows platform: gate check, deserialization,
then the windows block. -/
def op_set_raw_win (unstable_flag : Bool) (args : Option SetRawArgs)
    (resource : Option StreamResource) (w : WinSys) : WinSetRawOut :=
  match check_unstable unstable_flag with
  | Except.error e => ⟨Except.error e, resource, w.consoleMode, 0⟩
  | Except.ok () =>
    match args with
    | none => ⟨Except.error Err.invalidArgs, resource, w.consoleMode, 0⟩
    | some a => op_set_raw_windows a.mode resource w

/-- Platform inputs of the unix op_isatty: the return value of
libc::isatty(fd) and the result of atty::is(atty::Stream::Stdin). -/
structure IsattySys where
  isatty_ret : Nat
  atty_stdin : Bool
deriving DecidableEq

/-- The unix op_isatty (tty.rs lines 223-256). The resource resolution is
partly modelled from the spec: `std_file_resource` (src/cli/ops/io.rs, not
under src/) hands the callback the std file for an FsFile resource
(reinserting the slot on every exit), fails with resource unavailable when
the FsFile slot is vacated, passes other resource kinds through as Err, and
fails with bad resource for a missing id. The first parameter mirrors the
unused `_state`: op_isatty consults no unstable gate. -/
def op_isatty (_state_unstable : Bool) (args : Option Nat)
    (resource : Option StreamResource) (sys : IsattySys) :
    Except Err Bool × Option StreamResource :=
  match args with
  | none => (Except.error Err.invalidArgs, resource)
  | some _rid =>
    match resource with
    | none => (Except.error Err.badResource, none)
    | some (StreamResource.FsFile (some saved)) =>
      (Except.ok (decide (sys.isatty_ret = 1)),
        some (StreamResource.FsFile (some saved)))
    | some (StreamResource.FsFile none) =>
      (Except.error Err.resourceUnavailable, some (StreamResource.FsFile none))
    | some (StreamResource.Stdin saved) =>
      (Except.ok sys.atty_stdin, some (StreamResource.Stdin saved))
    | some StreamResource.Other => (Except.ok false, some StreamResource.Other)

/-- Platform inputs of the windows op_isatty: validity of the raw handle
(INVALID_HANDLE_VALUE / null checks of get_windows_handle) and whether
GetConsoleMode(handle, &test_mode) returns nonzero; plus the atty probe for
the Stdin arm. -/
structure WinIsattySys where
  handleIsInvalidValue : Bool
  handleIsNull : Bool
  getModeOk : Bool
  atty_stdin : Bool
deriving DecidableEq

/-- The windows op_isatty (tty.rs lines 223-256 with the windows cfg block):
get_windows_handle fails on INVALID_HANDLE_VALUE (os error) or a null handle
(ReferenceError); otherwise a handle whose console mode cannot be queried is
simply not a console, yielding false. Resource resolution is modelled from
the spec as in the unix op_isatty. -/
def op_isatty_windows (_state_unstable : Bool) (args : Option Nat)
    (resource : Option StreamResource) (sys : WinIsattySys) :
    Except Err Bool × Option StreamResource :=
  match args with
  | none => (Except.error Err.invalidArgs, resource)
  | some _rid =>
    match resource with
    | none => (Except.error Err.badResource, none)
    | some (StreamResource.FsFile (some saved)) =>
      if sys.handleIsInvalidValue then
        (Except.error Err.osFailure, some (StreamResource.FsFile (some saved)))
      else if sys.handleIsNull then
        (Except.error Err.nullHandle, some (StreamResource.FsFile (some saved)))
      else
        (Except.ok sys.getModeOk, some (StreamResource.FsFile (some saved)))
    | some (StreamResource.FsFile none) =>
      (Except.error Err.resourceUnavailable, some (StreamResource.FsFile none))
    | some (StreamResource.Stdin saved) =>
      (Except.ok sys.atty_stdin, some (StreamResource.Stdin saved))
    | some StreamResource.Other => (Except.ok false, some StreamResource.Other)

/-- Platform inputs of the unix op_console_size: success of the
ioctl(fd, TIOCGWINSZ) call and the window size it reports. -/
structure ConsoleSizeSys where
  ioctlOk : Bool
  ws_col : Nat
  ws_row : Nat
deriving DecidableEq

/-- The unix op_console_size (tty.rs lines 269-328): unstable gate check
("Deno.consoleSize") first, then argument deserialization, then resource
resolution (modelled from the spec as for op_isatty); the Err arm of the
callback — any non-FsFile resource — fails with bad resource (line 324);
for a file, ioctl TIOCGWINSZ either fails with the os error or yields the
column/row pair. Returns the result, the final table entry, and the number
of syscalls performed. -/
def op_console_size (unstable_flag : Bool) (args : Option Nat)
    (resource : Option StreamResource) (sys : ConsoleSizeSys) :
    Except Err (Nat × Nat) × Option StreamResource × Nat :=
  match check_unstable unstable_flag with
  | Except.error e => (Except.error e, resource, 0)
  | Except.ok () =>
    match args with
    | none => (Except.error Err.invalidArgs, resource, 0)
    | some _rid =>
      match resource with
      | none => (Except.error Err.badResource, none, 0)
      | some (StreamResource.FsFile (some saved)) =>
        if sys.ioctlOk then
          (Except.ok (sys.ws_col, sys.ws_row),
            some (StreamResource.FsFile (some saved)), 1)
        else
          (Except.error Err.osFailure,
            some (StreamResource.FsFile (some saved)), 1)
      | some (StreamResource.FsFile none) =>
        (Except.error Err.resourceUnavailable,
          some (StreamResource.FsFile none), 0)
      | some (StreamResource.Stdin saved) =>
        (Except.error Err.badResource, some (StreamResource.Stdin saved), 0)
      | some StreamResource.Other =>
        (Except.error Err.badResource, some StreamResource.Other, 0)

/-- Run a sequence of unix op_set_raw calls (true = enable raw, false =
disable raw) in which every platform syscall succeeds, threading the
resource entry and the terminal attributes. -/
def runCalls (calls : List Bool) (resource : Option StreamResource)
    (term : Termios) : Option StreamResource × Termios :=
  match calls with
  | [] => (resource, term)
  | b :: rest =>
    let out := op_set_raw_unix b resource term true true
    runCalls rest out.resource out.term

/-- Run a sequence of windows op_set_raw calls (true = enable raw, false =
disable raw) in which the handle is valid and every console syscall and
slot conversion succeeds, threading the resource entry and the console
mode. -/
def runCallsWin (calls : List Bool) (resource : Option StreamResource)
    (mode : Nat) : Option StreamResource × Nat :=
  match calls with
  | [] => (resource, mode)
  | b :: rest =>
    let out := op_set_raw_windows b resource ⟨mode, false, false, true, true, true⟩
    runCallsWin rest out.resource out.consoleMode

/-- Concrete terminal snapshot used by the concrete evaluations below: BRKINT
set in input_flags, ECHO set in local_flags, an empty control-flags word, and
the 32-entry control-character array. -/
def sampleMode : Termios := ⟨2, 0, 0, 8, List.replicate 32 0⟩

/-- Bit-level reading of clearMask: exactly the bits of the mask are cleared. -/
theorem clearMask_testBit (m mask i : Nat) :
    (clearMask m mask).testBit i = (m.testBit i && !(mask.testBit i)) := by
  simp only [clearMask, Nat.testBit_xor, Nat.testBit_land]
  cases m.testBit i <;> cases mask.testBit i <;> rfl

/-- After clearMask, no bit of the mask remains set. -/
theorem clearMask_land_self (m mask : Nat) : clearMask m mask &&& mask = 0 := by
  refine Nat.eq_of_testBit_eq fun j => ?_
  simp only [Nat.testBit_land, clearMask_testBit, Nat.zero_testBit]
  cases m.testBit j <;> cases mask.testBit j <;> rfl

/-- C4: disable_raw (op_set_raw with mode=false) on a resource holding a saved
mode applies the snapshot via set_mode (one syscall; on success the terminal
attributes become exactly the snapshot) and unconditionally clears saved_mode,
even when the restore syscall fails and the OS error is returned; a subsequent
disable_raw is then a syscall-free success that does not reapply the snapshot,
for both StandardInput and OpenFile resources. -/
theorem disable_raw_consumes_snapshot (m t t2 : Termios) (g setOk g2 s2 : Bool) :
    op_set_raw_unix false (some (StreamResource.Stdin (some m))) t g setOk =
      ⟨if setOk then Except.ok () else Except.error Err.osFailure,
        some (StreamResource.Stdin none), if setOk then m else t, 1⟩ ∧
    op_set_raw_unix false (some (StreamResource.FsFile (some (some m)))) t g setOk =
      ⟨if setOk then Except.ok () else Except.error Err.osFailure,
        some (StreamResource.FsFile (some none)), if setOk then m else t, 1⟩ ∧
    op_set_raw_unix false (some (StreamResource.Stdin none)) t2 g2 s2 =
      ⟨Except.ok (), some (StreamResource.Stdin none), t2, 0⟩ ∧
    op_set_raw_unix false (some (StreamResource.FsFile (some none))) t2 g2 s2 =
      ⟨Except.ok (), some (StreamResource.FsFile (some none)), t2, 0⟩ := by
  refine ⟨?_, ?_, ?_, ?_⟩ <;> cases setOk <;>
    simp [op_set_raw_unix, disableRaw]

/-- C8: calling op_set_raw with the unstable gate closed returns the distinct
FeatureDisabled failure with the resource entry and terminal/console state
untouched and zero syscalls performed, for every argument value — the gate
check precedes argument deserialization, registry access and platform
syscalls — on both platforms. -/
theorem set_raw_gate_closed (args : Option SetRawArgs)
    (resource : Option StreamResource) (t : Termios) (g s : Bool) (w : WinSys) :
    op_set_raw false args resource t g s =
      ⟨Except.error Err.featureDisabled, resource, t, 0⟩ ∧
    op_set_raw_win false args resource w =
      ⟨Except.error Err.featureDisabled, resource, w.consoleMode, 0⟩ :=
  ⟨rfl, rfl⟩

/-- C10: op_console_size enforces the unstable gate ("Deno.consoleSize")
before touching the registry — with the gate closed it returns FeatureDisabled
with the table entry untouched and zero syscalls — while op_isatty performs no
gate check at all: its outcome is identical for every value of the gate, on
both platforms. -/
theorem console_size_gated_isatty_ungated (args : Option Nat)
    (resource : Option StreamResource) (cs : ConsoleSizeSys) (sys : IsattySys)
    (wsys : WinIsattySys) (g g2 : Bool) :
    op_console_size false args resource cs =
      (Except.error Err.featureDisabled, resource, 0) ∧
    op_isatty g args resource sys = op_isatty g2 args resource sys ∧
    op_isatty_windows g args resource wsys =
      op_isatty_windows g2 args resource wsys :=
  ⟨rfl, rfl, rfl⟩

/-- C5: op_set_raw on an OpenFile resource reinserts the underlying file into
the handle slot on every exit path — on windows the final table entry carries
the same populated slot whether the call succeeds, the synchronous conversion
fails, or a handle check or console syscall fails, and on unix the populated
slot is preserved on every path — while a vacated slot (handle_slot none)
makes the call fail immediately with ResourceUnavailable, performing no
syscall and leaving the entry present with the slot still vacated. -/
theorem fsfile_slot_reinserted (saved : Option Termios) (is_raw : Bool)
    (w : WinSys) (t : Termios) (g s : Bool) :
    (op_set_raw_windows is_raw (some (StreamResource.FsFile (some saved)))
        w).resource = some (StreamResource.FsFile (some saved)) ∧
    op_set_raw_windows is_raw (some (StreamResource.FsFile none)) w =
      ⟨Except.error Err.resourceUnavailable, some (StreamResource.FsFile none),
        w.consoleMode, 0⟩ ∧
    (∃ saved2,
      (op_set_raw_unix is_raw (some (StreamResource.FsFile (some saved)))
          t g s).resource = some (StreamResource.FsFile (some saved2))) ∧
    op_set_raw_unix is_raw (some (StreamResource.FsFile none)) t g s =
      ⟨Except.error Err.resourceUnavailable, some (StreamResource.FsFile none),
        t, 0⟩ := by
  obtain ⟨cm, hiv, hn, go, so, co⟩ := w
  refine ⟨?_, ?_, ?_, ?_⟩
  · cases is_raw <;> cases hiv <;> cases hn <;> cases go <;> cases so <;>
      cases co <;> rfl
  · cases is_raw <;> rfl
  · cases is_raw <;> cases saved <;> cases g <;> cases s <;>
      exact ⟨_, rfl⟩
  · cases is_raw <;> rfl

/-- C6 counterexample: op_set_raw with mode=false on an Other-kind resource
fails with the bad-resource error, not with the unsupported-resource-kind
error the claim states. -/
theorem other_kind_disable_bad_resource_cex :
    (op_set_raw_unix false (some StreamResource.Other) sampleMode true
        true).result = Except.error Err.badResource ∧
    Err.badResource ≠ Err.notSupported := by decide

/-- C6 amended: on a resource of a non-terminal-capable kind, op_set_raw with
mode=true fails with the unsupported-kind error on unix, while mode=false on
unix and both modes on windows fail with the bad-resource error; op_isatty
returns Ok false without error on both platforms; op_console_size fails with
bad resource; and every one of these calls returns normally without touching
the resource entry or performing a syscall (no panic). -/
theorem other_kind_behavior (t : Termios) (g s : Bool) (w : WinSys) (u : Bool)
    (rid : Nat) (sys : IsattySys) (wsys : WinIsattySys) (cs : ConsoleSizeSys) :
    op_set_raw_unix true (some StreamResource.Other) t g s =
      ⟨Except.error Err.notSupported, some StreamResource.Other, t, 0⟩ ∧
    op_set_raw_unix false (some StreamResource.Other) t g s =
      ⟨Except.error Err.badResource, some StreamResource.Other, t, 0⟩ ∧
    op_set_raw_windows true (some StreamResource.Other) w =
      ⟨Except.error Err.badResource, some StreamResource.Other,
        w.consoleMode, 0⟩ ∧
    op_set_raw_windows false (some StreamResource.Other) w =
      ⟨Except.error Err.badResource, some StreamResource.Other,
        w.consoleMode, 0⟩ ∧
    op_isatty u (some rid) (some StreamResource.Other) sys =
      (Except.ok false, some StreamResource.Other) ∧
    op_isatty_windows u (some rid) (some StreamResource.Other) wsys =
      (Except.ok false, some StreamResource.Other) ∧
    op_console_size true (some rid) (some StreamResource.Other) cs =
      (Except.error Err.badResource, some StreamResource.Other, 0) :=
  ⟨rfl, rfl, rfl, rfl, rfl, rfl, rfl⟩

/-- C1 counterexample: starting from the cooked state, an enable_raw whose
set_mode application fails returns the OS error but leaves saved_mode equal
to some (the captured mode), not none: the capture is stored into the
resource before tcsetattr is attempted. -/
theorem enable_raw_set_mode_failure_cex :
    (op_set_raw_unix true (some (StreamResource.Stdin none)) sampleMode true
        false).result = Except.error Err.osFailure ∧
    (op_set_raw_unix true (some (StreamResource.Stdin none)) sampleMode true
        false).resource = some (StreamResource.Stdin (some sampleMode)) ∧
    some (StreamResource.Stdin (some sampleMode)) ≠
      some (StreamResource.Stdin none) := by decide

/-- C1 amended: starting from the cooked state, if the get_mode capture
fails, enable_raw surfaces the OS failure and saved_mode is still none; but
if the capture succeeds and the set_mode application of the raw variant
fails, enable_raw surfaces the OS failure with the captured pre-call mode
already stored in saved_mode; the terminal attributes are unchanged in both
failure cases, for both StandardInput and OpenFile resources. -/
theorem enable_raw_failure_states (t : Termios) (s : Bool) :
    op_set_raw_unix true (some (StreamResource.Stdin none)) t false s =
      ⟨Except.error Err.osFailure, some (StreamResource.Stdin none), t, 1⟩ ∧
    op_set_raw_unix true (some (StreamResource.Stdin none)) t true false =
      ⟨Except.error Err.osFailure, some (StreamResource.Stdin (some t)),
        t, 2⟩ ∧
    op_set_raw_unix true (some (StreamResource.FsFile (some none))) t false s =
      ⟨Except.error Err.osFailure, some (StreamResource.FsFile (some none)),
        t, 1⟩ ∧
    op_set_raw_unix true (some (StreamResource.FsFile (some none))) t true
        false =
      ⟨Except.error Err.osFailure,
        some (StreamResource.FsFile (some (some t))), t, 2⟩ := by
  refine ⟨?_, ?_, ?_, ?_⟩ <;> simp [op_set_raw_unix, enableRaw]

/-- C3: on a terminal-capable resource, after a successful enable_raw a second
enable_raw succeeds while performing zero syscalls and leaving the resource
entry and the terminal attributes exactly as after the first call (same final
mode, same saved_mode as calling it once); and after a successful disable_raw
a second disable_raw is a syscall-free no-op that succeeds. -/
theorem set_raw_idempotent (r r2 : StreamResource) (t t2 : Termios)
    (g s g2 s2 g3 s3 g4 s4 : Bool)
    (h1 : (op_set_raw_unix true (some r) t g s).result = Except.ok ())
    (h2 : (op_set_raw_unix false (some r2) t2 g3 s3).result = Except.ok ()) :
    (op_set_raw_unix true (op_set_raw_unix true (some r) t g s).resource
        (op_set_raw_unix true (some r) t g s).term g2 s2 =
      ⟨Except.ok (), (op_set_raw_unix true (some r) t g s).resource,
        (op_set_raw_unix true (some r) t g s).term, 0⟩) ∧
    (op_set_raw_unix false (op_set_raw_unix false (some r2) t2 g3 s3).resource
        (op_set_raw_unix false (some r2) t2 g3 s3).term g4 s4 =
      ⟨Except.ok (), (op_set_raw_unix false (some r2) t2 g3 s3).resource,
        (op_set_raw_unix false (some r2) t2 g3 s3).term, 0⟩) := by
  constructor
  · match r with
    | StreamResource.Stdin (some m) => rfl
    | StreamResource.FsFile (some (some m)) => rfl
    | StreamResource.Stdin none =>
      cases g <;> cases s <;>
        simp_all [op_set_raw_unix, enableRaw]
    | StreamResource.FsFile (some none) =>
      cases g <;> cases s <;>
        simp_all [op_set_raw_unix, enableRaw]
    | StreamResource.FsFile none =>
      simp [op_set_raw_unix] at h1
    | StreamResource.Other =>
      simp [op_set_raw_unix] at h1
  · match r2 with
    | StreamResource.Stdin (some m) =>
      cases s3 <;> simp_all [op_set_raw_unix, disableRaw]
    | StreamResource.FsFile (some (some m)) =>
      cases s3 <;> simp_all [op_set_raw_unix, disableRaw]
    | StreamResource.Stdin none => rfl
    | StreamResource.FsFile (some none) => rfl
    | StreamResource.FsFile none =>
      simp [op_set_raw_unix] at h2
    | StreamResource.Other =>
      simp [op_set_raw_unix] at h2

/-- C3 witness: the idempotence theorem applied to a StandardInput resource
entering raw mode from the cooked state and to one leaving it. -/
theorem set_raw_idempotent_witness :
    ((op_set_raw_unix true (some (StreamResource.Stdin none)) sampleMode true
        true).result = Except.ok ()) ∧
    ((op_set_raw_unix false (some (StreamResource.Stdin (some sampleMode)))
        sampleMode true true).result = Except.ok ()) ∧
    ((op_set_raw_unix true
        (op_set_raw_unix true (some (StreamResource.Stdin none)) sampleMode
          true true).resource
        (op_set_raw_unix true (some (StreamResource.Stdin none)) sampleMode
          true true).term true true =
      ⟨Except.ok (),
        (op_set_raw_unix true (some (StreamResource.Stdin none)) sampleMode
          true true).resource,
        (op_set_raw_unix true (some (StreamResource.Stdin none)) sampleMode
          true true).term, 0⟩) ∧
    (op_set_raw_unix false
        (op_set_raw_unix false (some (StreamResource.Stdin (some sampleMode)))
          sampleMode true true).resource
        (op_set_raw_unix false (some (StreamResource.Stdin (some sampleMode)))
          sampleMode true true).term true true =
      ⟨Except.ok (),
        (op_set_raw_unix false (some (StreamResource.Stdin (some sampleMode)))
          sampleMode true true).resource,
        (op_set_raw_unix false (some (StreamResource.Stdin (some sampleMode)))
          sampleMode true true).term, 0⟩)) :=
  ⟨by decide, by decide,
    set_raw_idempotent (StreamResource.Stdin none)
      (StreamResource.Stdin (some sampleMode)) sampleMode sampleMode
      true true true true true true true true (by decide) (by decide)⟩

/-- C7: the interactivity query on a valid handle that is not a terminal
returns Ok false rather than an error: on unix an isatty return value other
than 1 yields Ok false (the probe has no failure path for an open file), a
non-interactive stdin yields Ok false, and on windows a valid handle whose
console mode cannot be queried yields Ok false, while a handle equal to
INVALID_HANDLE_VALUE fails with the OS error. -/
theorem isatty_nonterminal_false (u : Bool) (rid : Nat) (saved : Option Termios)
    (sys : IsattySys) (wsys wsys2 : WinIsattySys)
    (hnt : sys.isatty_ret ≠ 1)
    (hvi : wsys.handleIsInvalidValue = false) (hvn : wsys.handleIsNull = false)
    (hnc : wsys.getModeOk = false)
    (hinv : wsys2.handleIsInvalidValue = true) :
    (op_isatty u (some rid) (some (StreamResource.FsFile (some saved)))
        sys).1 = Except.ok false ∧
    (sys.atty_stdin = false →
      (op_isatty u (some rid) (some (StreamResource.Stdin saved)) sys).1 =
        Except.ok false) ∧
    (op_isatty_windows u (some rid) (some (StreamResource.FsFile (some saved)))
        wsys).1 = Except.ok false ∧
    (op_isatty_windows u (some rid) (some (StreamResource.FsFile (some saved)))
        wsys2).1 = Except.error Err.osFailure := by
  refine ⟨?_, ?_, ?_, ?_⟩
  · simp [op_isatty, hnt]
  · intro h; simp [op_isatty, h]
  · simp [op_isatty_windows, hvi, hvn, hnc]
  · simp [op_isatty_windows, hinv]

/-- C7 witness: the non-terminal query theorem applied to an isatty return of
0, a valid handle without console-mode support, and an invalid handle. -/
theorem isatty_nonterminal_false_witness :
    ((0 : Nat) ≠ 1 ∧
      (⟨false, false, false, false⟩ : WinIsattySys).handleIsInvalidValue =
        false) ∧
    ((op_isatty false (some 0) (some (StreamResource.FsFile (some none)))
        ⟨0, false⟩).1 = Except.ok false ∧
    ((⟨0, false⟩ : IsattySys).atty_stdin = false →
      (op_isatty false (some 0) (some (StreamResource.Stdin none))
          ⟨0, false⟩).1 = Except.ok false) ∧
    (op_isatty_windows false (some 0)
        (some (StreamResource.FsFile (some none)))
        ⟨false, false, false, false⟩).1 = Except.ok false ∧
    (op_isatty_windows false (some 0)
        (some (StreamResource.FsFile (some none)))
        ⟨true, false, false, false⟩).1 = Except.error Err.osFailure) :=
  ⟨⟨by decide, by decide⟩,
    isatty_nonterminal_false false 0 none ⟨0, false⟩
      ⟨false, false, false, false⟩ ⟨true, false, false, false⟩
      (by decide) (by decide) (by decide) (by decide) (by decide)⟩

/-- C9 counterexample: the raw variant does not leave every field outside the
listed ones unchanged — it also sets the CS8 character-size bits in
control_flags, so a snapshot without CS8 has its control_flags changed. -/
theorem make_raw_cs8_cex :
    (makeRaw sampleMode).control_flags ≠ sampleMode.control_flags ∧
    (makeRaw sampleMode).control_flags = CS8 := by decide

/-- C9 amended: the raw variant built from a snapshot M clears BRKINT, ICRNL,
INPCK, ISTRIP and IXON in input_flags and ECHO, ICANON, IEXTEN and ISIG in
local_flags, preserving every bit of those words outside the two masks, sets
the read policy to VMIN = 1 and VTIME = 0 while preserving every other
control character, leaves output_flags unchanged, and additionally sets the
CS8 character-size bits in control_flags, preserving its other bits. -/
theorem make_raw_spec (m : Termios) (i : Nat)
    (hlen : VMIN < m.control_chars.length) :
    (makeRaw m).input_flags &&& INPUT_RAW_MASK = 0 ∧
    (makeRaw m).local_flags &&& LOCAL_RAW_MASK = 0 ∧
    (INPUT_RAW_MASK.testBit i = false →
      (makeRaw m).input_flags.testBit i = m.input_flags.testBit i) ∧
    (LOCAL_RAW_MASK.testBit i = false →
      (makeRaw m).local_flags.testBit i = m.local_flags.testBit i) ∧
    (CS8.testBit i = false →
      (makeRaw m).control_flags.testBit i = m.control_flags.testBit i) ∧
    (CS8.testBit i = true → (makeRaw m).control_flags.testBit i = true) ∧
    (makeRaw m).output_flags = m.output_flags ∧
    (makeRaw m).control_chars[VMIN]? = some 1 ∧
    (makeRaw m).control_chars[VTIME]? = some 0 ∧
    (i ≠ VMIN → i ≠ VTIME →
      (makeRaw m).control_chars[i]? = m.control_chars[i]?) := by
  have hlen5 : VTIME < m.control_chars.length := by
    have : VTIME < VMIN := by decide
    omega
  refine ⟨clearMask_land_self _ _, clearMask_land_self _ _, ?_, ?_, ?_, ?_,
    rfl, ?_, ?_, ?_⟩
  · intro h; simp [makeRaw, clearMask_testBit, h]
  · intro h; simp [makeRaw, clearMask_testBit, h]
  · intro h; simp [makeRaw, Nat.testBit_lor, h]
  · intro h; simp [makeRaw, Nat.testBit_lor, h]
  · show ((m.control_chars.set VMIN 1).set VTIME 0)[VMIN]? = some 1
    rw [List.getElem?_set_ne (by decide)]
    exact List.getElem?_set_eq_of_lt 1 hlen
  · show ((m.control_chars.set VMIN 1).set VTIME 0)[VTIME]? = some 0
    exact List.getElem?_set_eq_of_lt 0 (by simpa using hlen5)
  · intro h6 h5
    show ((m.control_chars.set VMIN 1).set VTIME 0)[i]? = m.control_chars[i]?
    rw [List.getElem?_set_ne (Ne.symm h5), List.getElem?_set_ne (Ne.symm h6)]

/-- C9 witness: the raw-variant characterization applied to the sample
snapshot at bit 3, which lies outside all three masks. -/
theorem make_raw_spec_witness :
    VMIN < sampleMode.control_chars.length ∧
    ((makeRaw sampleMode).input_flags &&& INPUT_RAW_MASK = 0 ∧
    (makeRaw sampleMode).local_flags &&& LOCAL_RAW_MASK = 0 ∧
    (INPUT_RAW_MASK.testBit 3 = false →
      (makeRaw sampleMode).input_flags.testBit 3 =
        sampleMode.input_flags.testBit 3) ∧
    (LOCAL_RAW_MASK.testBit 3 = false →
      (makeRaw sampleMode).local_flags.testBit 3 =
        sampleMode.local_flags.testBit 3) ∧
    (CS8.testBit 3 = false →
      (makeRaw sampleMode).control_flags.testBit 3 =
        sampleMode.control_flags.testBit 3) ∧
    (CS8.testBit 3 = true → (makeRaw sampleMode).control_flags.testBit 3 =
      true) ∧
    (makeRaw sampleMode).output_flags = sampleMode.output_flags ∧
    (makeRaw sampleMode).control_chars[VMIN]? = some 1 ∧
    (makeRaw sampleMode).control_chars[VTIME]? = some 0 ∧
    (3 ≠ VMIN → 3 ≠ VTIME →
      (makeRaw sampleMode).control_chars[(3 : Nat)]? =
        sampleMode.control_chars[(3 : Nat)]?)) :=
  ⟨by decide, make_raw_spec sampleMode 3 (by decide)⟩

/-- Splitting a run of op_set_raw calls at any point. -/
theorem runCalls_append (l1 l2 : List Bool) (r : Option StreamResource)
    (t : Termios) :
    runCalls (l1 ++ l2) r t =
      runCalls l2 (runCalls l1 r t).1 (runCalls l1 r t).2 := by
  induction l1 generalizing r t with
  | nil => rfl
  | cons b rest ih => exact ih _ _

/-- Invariant of all-syscalls-succeed op_set_raw runs on a StandardInput
resource that started cooked at mode M: the entry stays a StandardInput whose
saved slot is either empty with the terminal back at M, or holds exactly M. -/
theorem runCalls_stdin_inv (M : Termios) (calls : List Bool)
    (s : Option Termios) (t : Termios)
    (h : (s = none ∧ t = M) ∨ s = some M) :
    ∃ s2 t2,
      runCalls calls (some (StreamResource.Stdin s)) t =
        (some (StreamResource.Stdin s2), t2) ∧
      ((s2 = none ∧ t2 = M) ∨ s2 = some M) := by
  induction calls generalizing s t with
  | nil => exact ⟨s, t, rfl, h⟩
  | cons b rest ih =>
    cases b with
    | false =>
      cases s with
      | none => exact ih none t h
      | some m =>
        have hm : m = M := by
          rcases h with ⟨h1, _⟩ | h2
          · exact absurd h1 (by simp)
          · injection h2
        exact ih none m (Or.inl ⟨rfl, hm⟩)
    | true =>
      cases s with
      | none =>
        have ht : t = M := by
          rcases h with ⟨_, h1⟩ | h2
          · exact h1
          · exact absurd h2 (by simp)
        subst ht
        exact ih (some t) (makeRaw t) (Or.inr rfl)
      | some m => exact ih (some m) t h

/-- Invariant of all-syscalls-succeed op_set_raw runs on an OpenFile resource
with a populated slot that started cooked at mode M, mirroring
runCalls_stdin_inv. -/
theorem runCalls_fsfile_inv (M : Termios) (calls : List Bool)
    (s : Option Termios) (t : Termios)
    (h : (s = none ∧ t = M) ∨ s = some M) :
    ∃ s2 t2,
      runCalls calls (some (StreamResource.FsFile (some s))) t =
        (some (StreamResource.FsFile (some s2)), t2) ∧
      ((s2 = none ∧ t2 = M) ∨ s2 = some M) := by
  induction calls generalizing s t with
  | nil => exact ⟨s, t, rfl, h⟩
  | cons b rest ih =>
    cases b with
    | false =>
      cases s with
      | none => exact ih none t h
      | some m =>
        have hm : m = M := by
          rcases h with ⟨h1, _⟩ | h2
          · exact absurd h1 (by simp)
          · injection h2
        exact ih none m (Or.inl ⟨rfl, hm⟩)
    | true =>
      cases s with
      | none =>
        have ht : t = M := by
          rcases h with ⟨_, h1⟩ | h2
          · exact h1
          · exact absurd h2 (by simp)
        subst ht
        exact ih (some t) (makeRaw t) (Or.inr rfl)
      | some m => exact ih (some m) t h

/-- C2 counterexample: a sequence enable_raw (success), disable_raw (restore
syscall fails), disable_raw on a StandardInput resource starting cooked at
the sample mode ends with a successful disable_raw, yet the final terminal
mode is the raw variant, not the starting mode: the failed restore consumed
the snapshot, so the last call had nothing to restore. -/
theorem round_trip_after_failed_restore_cex :
    (let o1 := op_set_raw_unix true (some (StreamResource.Stdin none))
        sampleMode true true
     let o2 := op_set_raw_unix false o1.resource o1.term true false
     let o3 := op_set_raw_unix false o2.resource o2.term true true
     o1.result = Except.ok () ∧ o2.result = Except.error Err.osFailure ∧
       o3.result = Except.ok () ∧ o3.syscalls = 0 ∧
       o3.term ≠ sampleMode) := by decide

/-- Splitting a run of windows op_set_raw calls at any point. -/
theorem runCallsWin_append (l1 l2 : List Bool) (r : Option StreamResource)
    (m : Nat) :
    runCallsWin (l1 ++ l2) r m =
      runCallsWin l2 (runCallsWin l1 r m).1 (runCallsWin l1 r m).2 := by
  induction l1 generalizing r m with
  | nil => rfl
  | cons b rest ih => exact ih _ _

/-- An all-syscalls-succeed windows op_set_raw run never modifies the
resource entry of a StandardInput or populated-slot OpenFile resource — in
particular its saved mode metadata is never written: no snapshot is taken
on the windows path. -/
theorem runCallsWin_keeps_resource (calls : List Bool) (s : Option Termios)
    (M : Nat) :
    (∃ m2, runCallsWin calls (some (StreamResource.Stdin s)) M =
      (some (StreamResource.Stdin s), m2)) ∧
    (∃ m2, runCallsWin calls (some (StreamResource.FsFile (some s))) M =
      (some (StreamResource.FsFile (some s)), m2)) := by
  induction calls generalizing M with
  | nil => exact ⟨⟨M, rfl⟩, ⟨M, rfl⟩⟩
  | cons b rest ih => exact ⟨(ih _).1, (ih _).2⟩

/-- C2 amended: for a StandardInput or OpenFile resource starting cooked at
terminal mode M, on the POSIX implementation every sequence of enable_raw
and disable_raw calls in which each platform syscall succeeds, ending with a
disable_raw, leaves the terminal mode bit-for-bit equal to M and the saved
slot empty — the restored mode is exactly the saved snapshot, never
synthesized (if an intermediate restore syscall fails, the snapshot is
consumed by that failed call and a later disable_raw succeeds without
restoring M). On the Windows implementation no snapshot is ever saved or
restored — the resource entry, saved mode included, is unchanged by every
all-success run — and a trailing successful disable_raw synthesizes the
non-raw mode as the console mode current before it with the RAW_MODE_MASK
bits forced on; concretely, the fully successful round trip enable_raw then
disable_raw from console mode 0 ends at RAW_MODE_MASK, not at the starting
mode. -/
theorem round_trip_restores_mode (calls : List Bool) (M : Termios) (mw : Nat)
    (s : Option Termios) :
    runCalls (calls ++ [false]) (some (StreamResource.Stdin none)) M =
      (some (StreamResource.Stdin none), M) ∧
    runCalls (calls ++ [false]) (some (StreamResource.FsFile (some none))) M =
      (some (StreamResource.FsFile (some none)), M) ∧
    runCallsWin (calls ++ [false]) (some (StreamResource.Stdin s)) mw =
      (some (StreamResource.Stdin s),
        (runCallsWin calls (some (StreamResource.Stdin s)) mw).2 |||
          RAW_MODE_MASK) ∧
    runCallsWin (calls ++ [false]) (some (StreamResource.FsFile (some s)))
        mw =
      (some (StreamResource.FsFile (some s)),
        (runCallsWin calls (some (StreamResource.FsFile (some s))) mw).2 |||
          RAW_MODE_MASK) ∧
    runCallsWin [true, false] (some (StreamResource.Stdin none)) 0 =
      (some (StreamResource.Stdin none), RAW_MODE_MASK) ∧
    RAW_MODE_MASK ≠ 0 := by
  refine ⟨?_, ?_, ?_, ?_, by decide, by decide⟩
  · obtain ⟨s2, t2, heq, hinv⟩ :=
      runCalls_stdin_inv M calls none M (Or.inl ⟨rfl, rfl⟩)
    rw [runCalls_append, heq]
    rcases hinv with ⟨hs, ht⟩ | hs
    · subst hs; subst ht; rfl
    · subst hs; rfl
  · obtain ⟨s2, t2, heq, hinv⟩ :=
      runCalls_fsfile_inv M calls none M (Or.inl ⟨rfl, rfl⟩)
    rw [runCalls_append, heq]
    rcases hinv with ⟨hs, ht⟩ | hs
    · subst hs; subst ht; rfl
    · subst hs; rfl
  · obtain ⟨m2, hm⟩ := (runCallsWin_keeps_resource calls s mw).1
    rw [runCallsWin_append, hm]
    rfl
  · obtain ⟨m2, hm⟩ := (runCallsWin_keeps_resource calls s mw).2
    rw [runCallsWin_append, hm]
    rfl

end Tty
